import Mathlib

/-!
Verification development for the MensaBotVVS repository.

This file shallowly embeds the response-parsing pipeline of the repository
(`src/parsers.py`, `src/models.py`, `src/utils.py`, `src/src/utils.py`)
into Lean and proves theorems about it.

Modelling conventions:
* XML documents (the result of `xml.etree.ElementTree.fromstring`) are modelled
  by the inductive `VVS.XML`; namespace-qualified tags such as
  `{http://www.vdv.de/trias}StopEvent` are written with their prefix form
  `"trias:StopEvent"` (a bijective renaming).
* A parser input is `Except Unit XML`: `.error ()` stands for an input string
  that is not well-formed XML (`ET.fromstring` raised `ET.ParseError`),
  `.ok root` for a well-formed document with root `root`.
* Python runtime exceptions escaping a function are modelled by `Except PyErr`.
* Python `None` is modelled by `Option.none`; `element.text` is `Option String`.
* Timezone-aware datetimes (`pytz`) are modelled by `PyDateTime`, a pair of a
  UTC epoch-second count and a UTC-offset in minutes; the Europe/Berlin offset
  is computed by the EU daylight-saving rule (in force since 1996, the period
  relevant to this repository's data).
* Truth testing follows Python semantics at each site: strings are falsy iff
  empty or `None`; `xml.etree` elements are falsy iff they have no child
  elements (CPython ≤ 3.13 semantics); dataclass instances are always truthy.
-/

namespace VVS

/-! ## Generic list and string helpers -/

/-- Concatenation of the images of `f`, in order (models chained iteration). -/
def catMap (f : α → List β) : List α → List β
  | [] => []
  | a :: as => f a ++ catMap f as

/-- `listLead n h` iff the char list `n` is an initial segment of `h`. -/
def listLead : List Char → List Char → Bool
  | [], _ => true
  | _ :: _, [] => false
  | a :: as, b :: bs => a == b && listLead as bs

/-- `listSub n h` iff the char list `n` occurs contiguously inside `h`
(models the Python operator `n in h` on strings). -/
def listSub (n : List Char) : List Char → Bool
  | [] => n.isEmpty
  | b :: bs => listLead n (b :: bs) || listSub n bs

/-- Python `needle in hay` on strings. -/
def strHas (hay needle : String) : Bool := listSub needle.data hay.data

/-- Python truthiness of an optional string (`None` and `""` are falsy). -/
def strTruthy : Option String → Bool
  | none => false
  | some s => !s.isEmpty

/-- Zero-padded two-digit rendering (for `strftime` fields `%H` and `%M`). -/
def pad2 (n : Nat) : String :=
  if n < 10 then "0" ++ toString n else toString n

/-! ## Python `int()` and `float()` conversion of strings -/

/-- Python runtime exceptions that a modelled function can let escape. -/
inductive PyErr where
  /-- `ValueError` raised by `ET.fromstring` failure, re-raised as
  `ValueError("Failed to parse ... XML")` by the parsers. -/
  | parseFailure
  /-- `TypeError` (e.g. `float(None)`, `int(None)`, or a call with an
  unexpected keyword argument). -/
  | typeError
  /-- `ValueError` (e.g. `int("abc")`, `float("abc")`). -/
  | valueError
  /-- `AttributeError` (e.g. `None.lower()`). -/
  | attributeError
deriving DecidableEq, Repr

/-- ASCII whitespace accepted (and stripped) by Python numeric conversions. -/
def isPyWs (c : Char) : Bool :=
  c == ' ' || c == '\t' || c == '\n' || c == '\r' || c == '\x0b' || c == '\x0c'

/-- Strip leading and trailing whitespace from a char list. -/
def stripWs (cs : List Char) : List Char :=
  ((cs.dropWhile isPyWs).reverse.dropWhile isPyWs).reverse

/-- Parse a run of decimal digits possibly separated by single underscores
(the digit-run grammar of Python numeric literals); `lastD` records whether
the previous character was a digit. Returns the value when the whole list
is a valid run. -/
def digitRun : List Char → Nat → Bool → Option Nat
  | [], acc, lastD => if lastD then some acc else none
  | c :: cs, acc, lastD =>
    if c.isDigit then digitRun cs (acc * 10 + (c.toNat - 48)) true
    else if c == '_' && lastD then
      match cs with
      | c' :: _ => if c'.isDigit then digitRun cs acc false else none
      | [] => none
    else none

/-- Whether a char list is a nonempty valid digit run, and its value. -/
def digitRunVal (cs : List Char) : Option Nat := digitRun cs 0 false

/-- Python `int(text)` where `text` is `element.text`: `TypeError` on `None`,
`ValueError` when the stripped string is not an optionally-signed digit run. -/
def pyInt : Option String → Except PyErr Int
  | none => .error .typeError
  | some s =>
    let cs := stripWs s.data
    match cs with
    | '+' :: rest =>
      match digitRunVal rest with
      | some n => .ok (n : Int)
      | none => .error .valueError
    | '-' :: rest =>
      match digitRunVal rest with
      | some n => .ok (-(n : Int))
      | none => .error .valueError
    | rest =>
      match digitRunVal rest with
      | some n => .ok (n : Int)
      | none => .error .valueError

/-- Split a char list at the first occurrence of a character satisfying `p`;
returns the part before and, when found, the part after. -/
def splitFirst (p : Char → Bool) : List Char → List Char × Option (List Char)
  | [] => ([], none)
  | c :: cs =>
    if p c then ([], some cs)
    else
      match splitFirst p cs with
      | (pre, rest) => (c :: pre, rest)

/-- Case-insensitive equality of a char list with an ASCII lowercase word. -/
def eqCaseless (cs : List Char) (w : List Char) : Bool :=
  (cs.map Char.toLower) == w

/-- Validity of the mantissa part of a Python float literal
(`digits`, `digits.`, `.digits`, or `digits.digits`, underscores allowed). -/
def floatMantissa (cs : List Char) : Bool :=
  match splitFirst (fun c => c == '.') cs with
  | (ip, none) => (digitRunVal ip).isSome
  | (ip, some fp) =>
    (ip.isEmpty || (digitRunVal ip).isSome) &&
    (fp.isEmpty || (digitRunVal fp).isSome) &&
    !(ip.isEmpty && fp.isEmpty)

/-- Validity of a Python float literal body after the optional sign. -/
def floatBody (cs : List Char) : Bool :=
  eqCaseless cs "inf".data || eqCaseless cs "infinity".data ||
  eqCaseless cs "nan".data ||
  (match splitFirst (fun c => c == 'e' || c == 'E') cs with
   | (mant, none) => floatMantissa mant
   | (mant, some ex) =>
     floatMantissa mant &&
     (match ex with
      | '+' :: d => (digitRunVal d).isSome
      | '-' :: d => (digitRunVal d).isSome
      | d => (digitRunVal d).isSome))

/-- Whether Python `float(s)` succeeds on the string `s`. -/
def floatOk (s : String) : Bool :=
  match stripWs s.data with
  | '+' :: rest => floatBody rest
  | '-' :: rest => floatBody rest
  | rest => floatBody rest

/-- Python `float(text)` where `text` is `element.text`, keeping the source
text as the value (no claim inspects the numeric value, only whether the
conversion raises): `TypeError` on `None`, `ValueError` on invalid literals. -/
def pyFloatText : Option String → Except PyErr String
  | none => .error .typeError
  | some s => if floatOk s then .ok s else .error .valueError

/-! ## Calendar arithmetic and the Europe/Berlin timezone

Models the `datetime`/`pytz` combination used by `_parseDateTime`
(src/parsers.py lines 25-56): naive UTC parsing, `pytz.UTC.localize`, and
`astimezone(pytz.timezone("Europe/Berlin"))`. The Berlin offset follows the
EU daylight-saving rule (last Sunday of March 01:00 UTC to last Sunday of
October 01:00 UTC, offset +120 minutes, otherwise +60), which is the IANA
zone data for all years since 1996. -/

/-- Gregorian leap year. -/
def isLeap (y : Nat) : Bool :=
  y % 4 == 0 && (y % 100 != 0 || y % 400 == 0)

/-- Number of days of month `m` in year `y`. -/
def daysInMonth (y m : Nat) : Nat :=
  if m == 2 then (if isLeap y then 29 else 28)
  else if m == 4 || m == 6 || m == 9 || m == 11 then 30
  else 31

/-- Days since 1970-01-01 of the civil date `y-m-d`
(standard days-from-civil algorithm, valid for `y ≥ 1`). -/
def daysFromCivil (y m d : Nat) : Int :=
  let y' := if m ≤ 2 then y - 1 else y
  let era := y' / 400
  let yoe := y' % 400
  let mp := (m + 9) % 12
  let doy := (153 * mp + 2) / 5 + (d - 1)
  let doe := yoe * 365 + yoe / 4 - yoe / 100 + doy
  (↑(era * 146097 + doe) : Int) - 719468

/-- Day number (days since epoch) of the last Sunday of month `m` of year `y`,
for a 31-day month (March and October). -/
def lastSundayDay (y m : Nat) : Int :=
  let d31 := daysFromCivil y m 31
  d31 - Int.emod (d31 + 4) 7

/-- UTC offset (in minutes) of Europe/Berlin at UTC instant `t` (epoch
seconds) whose UTC year is `y`: +120 during the EU summer-time window,
+60 otherwise. -/
def berlinOffsetMinutes (y : Nat) (t : Int) : Int :=
  let dstStart := lastSundayDay y 3 * 86400 + 3600
  let dstEnd := lastSundayDay y 10 * 86400 + 3600
  if dstStart ≤ t ∧ t < dstEnd then 120 else 60

/-- A timezone-aware `datetime` as produced by `_parseDateTime`: the UTC
instant in epoch seconds together with the attached zone offset in minutes.
Subtraction of aware datetimes compares `utcSeconds` only; `strftime`
rendering uses `utcSeconds + 60 * offsetMinutes`. -/
structure PyDateTime where
  utcSeconds : Int
  offsetMinutes : Int
deriving DecidableEq, Repr

/-- Parse exactly four decimal digits (the `%Y` field of `strptime`). -/
def p4 : List Char → Option (Nat × List Char)
  | a :: b :: c :: d :: rest =>
    if a.isDigit && b.isDigit && c.isDigit && d.isDigit then
      some (((a.toNat - 48) * 10 + (b.toNat - 48)) * 100 +
            (c.toNat - 48) * 10 + (d.toNat - 48), rest)
    else none
  | _ => none

/-- Parse one or two decimal digits followed by the literal `lit`
(the flexible-width numeric fields of `strptime`, which backtrack from two
digits to one when the following literal does not match). -/
def p12Lit (lit : Char) : List Char → Option (Nat × List Char)
  | a :: b :: c :: rest =>
    if a.isDigit && b.isDigit && c == lit then
      some ((a.toNat - 48) * 10 + (b.toNat - 48), rest)
    else if a.isDigit && b == lit then
      some (a.toNat - 48, c :: rest)
    else none
  | a :: b :: [] =>
    if a.isDigit && b == lit then some (a.toNat - 48, []) else none
  | _ => none

/-- Parse one or two decimal digits at the end of the input
(the final `%S` field, which must consume the rest of the string). -/
def p12End : List Char → Option Nat
  | [a] => if a.isDigit then some (a.toNat - 48) else none
  | [a, b] =>
    if a.isDigit && b.isDigit then some ((a.toNat - 48) * 10 + (b.toNat - 48))
    else none
  | _ => none

/-- `datetime.strptime(s, "%Y-%m-%dT%H:%M:%S")` on a char list: returns the
validated `(y, m, d, h, mi, s)` fields, `none` when the format does not match
or the `datetime` constructor would reject the field values. -/
def parseNaive (cs : List Char) : Option (Nat × Nat × Nat × Nat × Nat × Nat) :=
  match p4 cs with
  | none => none
  | some (y, r1) =>
    match r1 with
    | '-' :: r2 =>
      match p12Lit '-' r2 with
      | none => none
      | some (mo, r3) =>
        match p12Lit 'T' r3 with
        | none => none
        | some (d, r4) =>
          match p12Lit ':' r4 with
          | none => none
          | some (h, r5) =>
            match p12Lit ':' r5 with
            | none => none
            | some (mi, r6) =>
              match p12End r6 with
              | none => none
              | some s =>
                if 1 ≤ y && 1 ≤ mo && mo ≤ 12 && 1 ≤ d && d ≤ daysInMonth y mo
                    && h ≤ 23 && mi ≤ 59 && s ≤ 59 then
                  some (y, mo, d, h, mi, s)
                else none
    | _ => none

/-- `_parseDateTime` (src/parsers.py lines 25-56) on `element.text`: `None`
and `""` give `None`; a trailing `Z` is stripped; the rest is parsed as naive
UTC and converted to Europe/Berlin. Both the `Z` and the no-`Z` branch of the
source perform the same UTC interpretation, so they are modelled jointly. -/
def pyParseDateTime : Option String → Option PyDateTime
  | none => none
  | some s =>
    if s.isEmpty then none
    else
      let cs := s.data
      let cs := if cs.getLast? == some 'Z' then cs.dropLast else cs
      match parseNaive cs with
      | none => none
      | some (y, mo, d, h, mi, sec) =>
        let utc := daysFromCivil y mo d * 86400 + ((h * 3600 + mi * 60 + sec : Nat) : Int)
        some ⟨utc, berlinOffsetMinutes y utc⟩

/-- `strftime("%H:%M")` of an aware datetime: render the local civil time. -/
def strfHM (dt : PyDateTime) : String :=
  let loc := dt.utcSeconds + dt.offsetMinutes * 60
  let sod := (Int.emod loc 86400).toNat
  pad2 (sod / 3600) ++ ":" ++ pad2 (sod % 3600 / 60)

/-- `_parseTimeString` (src/parsers.py lines 59-70). -/
def pyParseTimeString (t : Option String) : Option String :=
  (pyParseDateTime t).map strfHM

/-! ## XML documents and `ElementTree` lookups -/

/-- An XML element: qualified tag, text (text before the first child, `none`
when absent, as in `ElementTree`), and child elements in document order. -/
inductive XML where
  | elem (tag : String) (text : Option String) (children : List XML)

/-- The qualified tag of an element. -/
def XML.tag : XML → String
  | .elem t _ _ => t

/-- The `text` attribute of an element. -/
def XML.text : XML → Option String
  | .elem _ tx _ => tx

/-- The child elements of an element. -/
def XML.children : XML → List XML
  | .elem _ _ cs => cs

mutual
/-- All proper descendants of an element, in document order. -/
def XML.descendants : XML → List XML
  | .elem _ _ cs => XML.descList cs

/-- All elements of the list together with their descendants, document order. -/
def XML.descList : List XML → List XML
  | [] => []
  | c :: cs => c :: (XML.descendants c ++ XML.descList cs)
end

/-- `element.findall(".//tag")`: every proper descendant with the given tag,
in document order. -/
def findAllDesc (x : XML) (tag : String) : List XML :=
  x.descendants.filter (fun e => e.tag == tag)

/-- `element.find(".//tag")`. -/
def findDesc (x : XML) (tag : String) : Option XML :=
  (findAllDesc x tag).head?

/-- Children with a given tag of each node of a list, in order
(one child step of an `ElementTree` path). -/
def childSel (ns : List XML) (tag : String) : List XML :=
  catMap (fun n => n.children.filter (fun e => e.tag == tag)) ns

/-- `element.find("tag")`: first direct child with the given tag. -/
def findChild (x : XML) (tag : String) : Option XML :=
  (childSel [x] tag).head?

/-- `element.find(".//t1/t2")`: first `t2` child of a `t1` descendant. -/
def findDesc2 (x : XML) (t1 t2 : String) : Option XML :=
  (childSel (findAllDesc x t1) t2).head?

/-- `element.find(".//t1/t2/t3")`. -/
def findDesc3 (x : XML) (t1 t2 t3 : String) : Option XML :=
  (childSel (childSel (findAllDesc x t1) t2) t3).head?

/-- `_getText` (src/parsers.py lines 73-75): returns the default `""` when the
element is `None`, and the element's `text` (which may itself be `None`)
otherwise. -/
def pyGetText : Option XML → Option String
  | none => some ""
  | some e => e.text

/-- Python truthiness of an optional `ElementTree` element: `None` is falsy,
and an element is truthy iff it has child elements (CPython ≤ 3.13). -/
def elemTruthy : Option XML → Bool
  | none => false
  | some e => !e.children.isEmpty

/-! ## Domain model (src/models.py) -/

/-- `TransportMode` (src/models.py lines 17-23). -/
inductive TransportMode where
  | RAIL | BUS | TRAM | SUBWAY | UNKNOWN
deriving DecidableEq, Repr

/-- `StopType` (src/models.py lines 26-31). -/
inductive StopType where
  | STOP | PLATFORM | STATION | UNKNOWN
deriving DecidableEq, Repr

/-- `Stop` (src/models.py lines 34-47). `id` and `name` are `Option String`
because the parser can pass `element.text` values that are Python `None`;
latitude/longitude are kept as the source text of a successfully converted
`float` (no claim inspects the numeric value). -/
structure Stop where
  id : Option String
  name : Option String
  latitudeText : Option String := none
  longitudeText : Option String := none
  locality : Option String := none
  stopType : StopType := .UNKNOWN
deriving DecidableEq, Repr

/-- The fields that `parseDepartures` computes for one stop event
(src/parsers.py lines 170-231); these are exactly the arguments of the
`Departure(...)` constructor call at lines 221-232. -/
structure DepartureFields where
  journeyRef : Option String
  line : Option String
  destination : Option String
  scheduledTime : Option String
  scheduledDateTime : Option PyDateTime
  estimatedTime : Option PyDateTime
  delayMinutes : Option Int
  platform : Option String
  transportMode : TransportMode
  realtime : Bool
deriving DecidableEq, Repr

/-- `ConnectionLeg` (src/models.py lines 118-132); `intermediateStops` is
always `[]` in records built by the parser and is omitted. -/
structure ConnectionLeg where
  origin : Stop
  destination : Stop
  departureTime : PyDateTime
  arrivalTime : PyDateTime
  line : Option String
  transportMode : TransportMode
deriving DecidableEq, Repr

/-- `Connection` (src/models.py lines 92-101). -/
structure Connection where
  origin : Stop
  destination : Stop
  departureTime : PyDateTime
  arrivalTime : PyDateTime
  durationMinutes : Int
  legs : List ConnectionLeg
deriving DecidableEq, Repr

/-! ## Transport-mode classification -/

/-- `_parseTransportMode` (src/parsers.py lines 78-91), on an already
non-`None` mode text. -/
def parseTransportMode (modeText : String) : TransportMode :=
  let modeLower := modeText.toLower
  if strHas modeLower "rail" || strHas modeLower "sbahn" || strHas modeLower "suburban" then
    .RAIL
  else if strHas modeLower "bus" then .BUS
  else if strHas modeLower "tram" || strHas modeLower "stadtbahn" then .TRAM
  else if strHas modeLower "subway" || strHas modeLower "ubahn" then .SUBWAY
  else .UNKNOWN

/-- The spec's classification rule, written as a first-match scan of the
priority-ordered rule table of spec section 4.4: each rule is a list of
case-insensitive substrings and a mode; the first rule with a matching
substring wins, and `unknown` is returned when no rule matches. -/
def specClassifyRules : List (List String × TransportMode) :=
  [ (["rail", "sbahn", "suburban"], .RAIL)
  , (["bus"], .BUS)
  , (["tram", "stadtbahn"], .TRAM)
  , (["subway", "ubahn"], .SUBWAY) ]

/-- First-match evaluation of a rule table against a lowercased name. -/
def firstMatch (low : String) : List (List String × TransportMode) → TransportMode
  | [] => .UNKNOWN
  | (needles, mode) :: rest =>
    if needles.any (fun n => strHas low n) then mode else firstMatch low rest

/-- Spec-side classification: lowercase the free-text name, then scan the
rule table in priority order. -/
def specTransportClassify (modeText : String) : TransportMode :=
  firstMatch modeText.toLower specClassifyRules

/-- `_parseTransportMode(modeName)` where `modeName` may be Python `None`
(then `modeText.lower()` raises `AttributeError`). -/
def parseTransportModeOpt : Option String → Except PyErr TransportMode
  | none => .error .attributeError
  | some s => .ok (parseTransportMode s)

/-! ## `VVSResponseParser.parseStops` (src/parsers.py lines 97-150) -/

/-- `float(_getText(e)) if e is not None else None` for a coordinate element
(src/parsers.py lines 129-130); a raised `TypeError`/`ValueError` is not
caught by `parseStops`. -/
def floatTextOf : Option XML → Except PyErr (Option String)
  | none => .ok none
  | some e =>
    match pyFloatText e.text with
    | .error er => .error er
    | .ok s => .ok (some s)

/-- The geo-position extraction of one location (src/parsers.py lines
124-130): absent `GeoPosition` yields no coordinates; a present `Latitude` or
`Longitude` child is converted with `float`, whose exceptions escape. -/
def geoOf (loc : XML) : Except PyErr (Option String × Option String) :=
  match findDesc loc "trias:GeoPosition" with
  | none => .ok (none, none)
  | some pos =>
    match floatTextOf (findChild pos "trias:Latitude") with
    | .error e => .error e
    | .ok lat =>
      match floatTextOf (findChild pos "trias:Longitude") with
      | .error e => .error e
      | .ok lon => .ok (lat, lon)

/-- The body of one iteration of the `parseStops` loop (src/parsers.py lines
114-145): locations without a `StopPoint` are skipped; a `Stop` is emitted
only when both reference and name are truthy. -/
def processLocation (loc : XML) : Except PyErr (Option Stop) :=
  match findDesc loc "trias:StopPoint" with
  | none => .ok none
  | some sp =>
    match geoOf loc with
    | .error e => .error e
    | .ok (lat, lon) =>
      let stopPointRef := pyGetText (findDesc sp "trias:StopPointRef")
      let stopPointName := pyGetText (findDesc2 sp "trias:StopPointName" "trias:Text")
      let locality := (findDesc2 loc "trias:LocationName" "trias:Text").bind XML.text
      if strTruthy stopPointRef && strTruthy stopPointName then
        .ok (some ⟨stopPointRef, stopPointName, lat, lon, locality, .STOP⟩)
      else .ok none

/-- The `parseStops` loop over all `Location` descendants; the first escaping
exception aborts the call. -/
def stopsGo : List XML → Except PyErr (List Stop)
  | [] => .ok []
  | loc :: rest =>
    match processLocation loc with
    | .error e => .error e
    | .ok none => stopsGo rest
    | .ok (some s) => (stopsGo rest).map (fun l => s :: l)

/-- `VVSResponseParser.parseStops`: ill-formed input raises
`ValueError("Failed to parse stops XML: ...")`. -/
def parseStops : Except Unit XML → Except PyErr (List Stop)
  | .error _ => .error .parseFailure
  | .ok root => stopsGo (findAllDesc root "trias:Location")

/-! ## `VVSResponseParser.parseDepartures` (src/parsers.py lines 152-238) -/

/-- Mode classification of a present `Service` section (src/parsers.py lines
187-190): without a `Mode` element the `UNKNOWN` default stands; otherwise
the mode name text is classified, raising `AttributeError` when a
`Name/Text` element is present without text. -/
def serviceMode (service : XML) : Except PyErr TransportMode :=
  match findDesc service "trias:Mode" with
  | none => .ok .UNKNOWN
  | some modeElem =>
    parseTransportModeOpt (pyGetText (findDesc2 modeElem "trias:Name" "trias:Text"))

/-- The transport-mode computation of one stop event (src/parsers.py lines
178-190): `UNKNOWN` when there is no `Service` section. -/
def stopEventMode (service : Option XML) : Except PyErr TransportMode :=
  match service with
  | none => .ok .UNKNOWN
  | some sv => serviceMode sv

/-- Assembles the fields of one stop event from its extracted parts; the
delay (src/parsers.py lines 212-218) is `int(delaySeconds / 60)` — truncation
toward zero, `Int.div` — when both instants are present, and `realtime` is
the presence of the estimated instant. -/
def mkDepFields (journeyRef line destination scheduledTime : Option String)
    (scheduledDateTime estimatedTime : Option PyDateTime)
    (platform : Option String) (tm : TransportMode) : DepartureFields :=
  { journeyRef := journeyRef
    line := line
    destination := destination
    scheduledTime := scheduledTime
    scheduledDateTime := scheduledDateTime
    estimatedTime := estimatedTime
    delayMinutes :=
      match scheduledDateTime, estimatedTime with
      | some sdt, some est => some (Int.tdiv (est.utcSeconds - sdt.utcSeconds) 60)
      | _, _ => none
    platform := platform
    transportMode := tm
    realtime := estimatedTime.isSome }

/-- The line extraction of one stop event (src/parsers.py lines 176-182):
`""` without a `Service` section, otherwise `_getText` of the looked-up
line-name element. -/
def stopEventLine (service : Option XML) : Option String :=
  match service with
  | none => some ""
  | some sv => pyGetText (findDesc2 sv "trias:PublishedLineName" "trias:Text")

/-- The destination extraction of one stop event (src/parsers.py lines
177-185). -/
def stopEventDestination (service : Option XML) : Option String :=
  match service with
  | none => some ""
  | some sv => pyGetText (findDesc2 sv "trias:DestinationText" "trias:Text")

/-- The `TimetabledTime` element of one stop event (src/parsers.py lines
193-201): only looked up below a direct `ThisCall` child. -/
def stopEventTimetabledElem (se : XML) : Option XML :=
  ((findChild se "trias:ThisCall").bind
    (fun tc => findDesc tc "trias:ServiceDeparture")).bind
    (fun sd => findChild sd "trias:TimetabledTime")

/-- The `EstimatedTime` element of one stop event (src/parsers.py lines
193-202). -/
def stopEventEstimatedElem (se : XML) : Option XML :=
  ((findChild se "trias:ThisCall").bind
    (fun tc => findDesc tc "trias:ServiceDeparture")).bind
    (fun sd => findChild sd "trias:EstimatedTime")

/-- The platform extraction of one stop event (src/parsers.py lines
204-206). -/
def stopEventPlatform (se : XML) : Option String :=
  (findChild se "trias:ThisCall").bind
    (fun tc => (findDesc2 tc "trias:PlannedBay" "trias:Text").bind XML.text)

/-- The field extraction of one stop event (src/parsers.py lines 170-218).
The only operation that can raise during extraction is the mode
classification; all other steps are pure lookups. -/
def stopEventFields (se : XML) : Except PyErr DepartureFields :=
  match stopEventMode (findDesc se "trias:Service") with
  | .error e => .error e
  | .ok tm =>
    .ok (mkDepFields
      (pyGetText (findDesc se "trias:JourneyRef"))
      (stopEventLine (findDesc se "trias:Service"))
      (stopEventDestination (findDesc se "trias:Service"))
      ((stopEventTimetabledElem se).bind (fun e => pyParseTimeString e.text))
      ((stopEventTimetabledElem se).bind (fun e => pyParseDateTime e.text))
      ((stopEventEstimatedElem se).bind (fun e => pyParseDateTime e.text))
      (stopEventPlatform se) tm)

/-- The emission guard of src/parsers.py line 220:
`if journeyRef and line and destination and scheduledTime`. -/
def departureGuard (f : DepartureFields) : Bool :=
  strTruthy f.journeyRef && strTruthy f.line &&
  strTruthy f.destination && strTruthy f.scheduledTime

/-- The `parseDepartures` loop over all `StopEvent` descendants. When the
guard passes, the source calls `Departure(..., _scheduledDateTime=...)`
(src/parsers.py line 226), but the dataclass field is named
`scheduledDateTime` (src/models.py line 58), so the constructor raises
`TypeError: unexpected keyword argument`, which `parseDepartures` does not
catch; the append at line 233 is never reached. -/
def depsGo : List XML → Except PyErr (List DepartureFields)
  | [] => .ok []
  | se :: rest =>
    match stopEventFields se with
    | .error e => .error e
    | .ok f => if departureGuard f then .error .typeError else depsGo rest

/-- `VVSResponseParser.parseDepartures`: ill-formed input raises
`ValueError("Failed to parse departures XML: ...")`. -/
def parseDepartures : Except Unit XML → Except PyErr (List DepartureFields)
  | .error _ => .error .parseFailure
  | .ok root => depsGo (findAllDesc root "trias:StopEvent")

/-! ## `VVSResponseParser.parseConnections` (src/parsers.py lines 240-360) -/

/-- `VVSResponseParser._parseConnectionLeg` (src/parsers.py lines 302-360).
The whole body is wrapped in `except Exception: return None`; the only
raisable operation is `_parseTransportMode(None)` (an `AttributeError` when a
`Mode/Name/Text` element is present without text), so every exception path is
modelled by `none`. -/
def legParse (leg : XML) : Option ConnectionLeg :=
  let st := findDesc leg "trias:StartTime"
  let et := findDesc leg "trias:EndTime"
  let dep := st.bind (fun e => pyParseDateTime e.text)
  let arr := et.bind (fun e => pyParseDateTime e.text)
  match dep, arr with
  | some d, some a =>
    let originElem := findDesc2 leg "trias:LegStart" "trias:StopPointRef"
    let destElem := findDesc2 leg "trias:LegEnd" "trias:StopPointRef"
    -- `Stop(...)` dataclass instances are always truthy, so the
    -- `if not origin or not destination` check at line 333 only detects the
    -- `None` case, i.e. a missing `StopPointRef` element.
    match originElem, destElem with
    | some oe, some de =>
      let originName := pyGetText (findDesc3 leg "trias:LegStart" "trias:StopPointName" "trias:Text")
      let destName := pyGetText (findDesc3 leg "trias:LegEnd" "trias:StopPointName" "trias:Text")
      let origin : Stop := ⟨oe.text, originName, none, none, none, .UNKNOWN⟩
      let destination : Stop := ⟨de.text, destName, none, none, none, .UNKNOWN⟩
      match findDesc leg "trias:Service" with
      | none => some ⟨origin, destination, d, a, none, .UNKNOWN⟩
      | some sv =>
        let line := (findDesc2 sv "trias:PublishedLineName" "trias:Text").bind XML.text
        match findDesc sv "trias:Mode" with
        | none => some ⟨origin, destination, d, a, line, .UNKNOWN⟩
        | some me =>
          match pyGetText (findDesc2 me "trias:Name" "trias:Text") with
          | none => none
          | some ms => some ⟨origin, destination, d, a, line, parseTransportMode ms⟩
    | _, _ => none
  | _, _ => none

/-- The body of one iteration of the `parseConnections` loop (src/parsers.py
lines 257-295). `if not all([startTimeElem, endTimeElem])` tests Python
truthiness of the elements themselves (`elemTruthy`), not `None`-ness. -/
def processTrip (trip : XML) : Option Connection :=
  if elemTruthy (findDesc trip "trias:StartTime") &&
     elemTruthy (findDesc trip "trias:EndTime") then
    match (findDesc trip "trias:StartTime").bind (fun e => pyParseDateTime e.text),
          (findDesc trip "trias:EndTime").bind (fun e => pyParseDateTime e.text) with
    | some dep, some arr =>
      match (findAllDesc trip "trias:TripLeg").filterMap legParse with
      | [] => none
      | l0 :: rest =>
        some ⟨l0.origin, (rest.getLastD l0).destination, dep, arr,
              Int.tdiv (arr.utcSeconds - dep.utcSeconds) 60, l0 :: rest⟩
    | _, _ => none
  else none

/-- The well-formed branch of `parseConnections`: total, since every
exception inside `_parseConnectionLeg` is caught there. -/
def parseConnectionsOk (root : XML) : List Connection :=
  (findAllDesc root "trias:Trip").filterMap processTrip

/-- `VVSResponseParser.parseConnections`: ill-formed input raises
`ValueError("Failed to parse connections XML: ...")`. -/
def parseConnections : Except Unit XML → Except PyErr (List Connection)
  | .error _ => .error .parseFailure
  | .ok root => .ok (parseConnectionsOk root)

/-! ## Duration formatting (src/utils.py lines 49-78 and
src/src/utils.py lines 30-57) -/

/-- Greedy `(?:(\d+)U)?` step of the duration regex: consume a maximal digit
run followed by the unit letter `u`, or consume nothing. -/
def gNumUnit (u : Char) (cs : List Char) : Option Nat × List Char :=
  let digits := cs.takeWhile Char.isDigit
  let rest := cs.drop digits.length
  if digits.isEmpty then (none, cs)
  else
    match rest with
    | c :: rest' => if c == u then (digitsToNat digits, rest') else (none, cs)
    | [] => (none, cs)
where
  /-- Value of a nonempty digit list. -/
  digitsToNat (ds : List Char) : Option Nat :=
    some (ds.foldl (fun acc c => acc * 10 + (c.toNat - 48)) 0)

/-- `re.match(r"PT(?:(\d+)H)?(?:(\d+)M)?(?:(\d+)S)?", duration)`: anchored at
the start only, trailing input ignored; returns the three captured groups
when the literal `PT` matches. -/
def durationMatch (cs : List Char) : Option (Option Nat × Option Nat × Option Nat) :=
  match cs with
  | 'P' :: 'T' :: rest =>
    let (h, rest1) := gNumUnit 'H' rest
    let (m, rest2) := gNumUnit 'M' rest1
    let (s, _) := gNumUnit 'S' rest2
    some (h, m, s)
  | _ => none

/-- `convert_iso_duration` (src/utils.py lines 49-78): join the present
components; return the input unchanged when the regex finds no match. -/
def convert_iso_duration (duration : String) : String :=
  match durationMatch duration.data with
  | some (h, m, s) =>
    let parts := [h.map (fun n => toString n ++ " hr"),
                  m.map (fun n => toString n ++ " min"),
                  s.map (fun n => toString n ++ " sec")].reduceOption
    String.intercalate " " parts
  | none => duration

/-- `convertISODuration` (src/src/utils.py lines 30-57): identical matching,
but the no-match branch falls off the function body, returning Python `None`. -/
def convertISODuration (duration : String) : Option String :=
  match durationMatch duration.data with
  | some (h, m, s) =>
    let parts := [h.map (fun n => toString n ++ " hr"),
                  m.map (fun n => toString n ++ " min"),
                  s.map (fun n => toString n ++ " sec")].reduceOption
    some (String.intercalate " " parts)
  | none => none

/-! ## Disruption check (src/utils.py lines 258-316)

`check_train_disruptions` performs an HTTP round trip (external transport)
and then processes the response; the embedding below covers the HTTP-200
response-processing branch, lines 287-312, on the already-parsed document. -/

/-- A disruption notice as printed by the check: the parsed priority and the
`text` of the optional `Summary` / `Description` / `Detail` elements (outer
`none` when the element is absent). -/
structure Notice where
  priority : Int
  summary : Option (Option String)
  description : Option (Option String)
  detail : Option (Option String)
deriving DecidableEq, Repr

/-- One iteration of the situation loop (src/utils.py lines 296-311):
situations without a `Priority` element are skipped; a present priority is
converted with `int(...)`, whose exceptions escape; only priorities strictly
between 0 and 3 produce a surfaced notice. -/
def checkSituation (sit : XML) : Except PyErr (Option Notice) :=
  match findDesc sit "siri:Priority" with
  | none => .ok none
  | some pe =>
    match pyInt pe.text with
    | .error e => .error e
    | .ok p =>
      if 0 < p ∧ p < 3 then
        .ok (some ⟨p, (findDesc sit "siri:Summary").map XML.text,
                   (findDesc sit "siri:Description").map XML.text,
                   (findDesc sit "siri:Detail").map XML.text⟩)
      else .ok none

/-- The situation loop, accumulating the surfaced notices in order. -/
def checkGo : List XML → Except PyErr (List Notice)
  | [] => .ok []
  | sit :: rest =>
    match checkSituation sit with
    | .error e => .error e
    | .ok none => checkGo rest
    | .ok (some n) => (checkGo rest).map (fun l => n :: l)

/-- The HTTP-200 branch of `check_train_disruptions` on a well-formed
document: surfaces (prints) the relevant notices and returns `True`
unconditionally (src/utils.py line 312). -/
def check_train_disruptions_body (root : XML) : Except PyErr (List Notice × Bool) :=
  (checkGo (findAllDesc root "trias:PtSituation")).map (fun ns => (ns, true))

/-- Spec-side description of the surfaced notices (spec sections 4.8 and
8.6): the priorities of exactly those situation nodes whose priority parses
to an integer in the open range (0,3), in document order. -/
def specRelevantPriorities (root : XML) : List Int :=
  (findAllDesc root "trias:PtSituation").filterMap (fun sit =>
    match findDesc sit "siri:Priority" with
    | none => none
    | some pe =>
      match pyInt pe.text with
      | .error _ => none
      | .ok p => if 0 < p ∧ p < 3 then some p else none)

/-- Hypothesis under which the situation loop cannot raise: every situation's
priority element, when present, has integer-parseable text. -/
def allPriosParse (root : XML) : Bool :=
  (findAllDesc root "trias:PtSituation").all (fun sit =>
    match findDesc sit "siri:Priority" with
    | none => true
    | some pe => (pyInt pe.text).toBool)

/-- The per-situation filter of spec section 4.8, written from the spec's
words: read a priority integer — nodes without a parseable priority are
skipped — and surface only notices with priority in the open range (0,3). -/
def specSituationFilter (sit : XML) : Option Notice :=
  match findDesc sit "siri:Priority" with
  | none => none
  | some pe =>
    match pyInt pe.text with
    | .error _ => none
    | .ok p =>
      if 0 < p ∧ p < 3 then
        some ⟨p, (findDesc sit "siri:Summary").map XML.text,
              (findDesc sit "siri:Description").map XML.text,
              (findDesc sit "siri:Detail").map XML.text⟩
      else none

/-- Spec-side description of the surfaced disruption notices. -/
def specSurfacedNotices (root : XML) : List Notice :=
  (findAllDesc root "trias:PtSituation").filterMap specSituationFilter

/-! ## Concrete example documents used by the theorems below -/

/-- A stop event in which all four required fields resolve (journey
reference, line, destination, scheduled time). -/
def c1Event : XML :=
  .elem "trias:StopEvent" none [
    .elem "trias:Service" none [
      .elem "trias:JourneyRef" (some "J9") [],
      .elem "trias:PublishedLineName" none [.elem "trias:Text" (some "S1") []],
      .elem "trias:DestinationText" none [.elem "trias:Text" (some "Schorndorf") []]
    ],
    .elem "trias:ThisCall" none [
      .elem "trias:CallAtStop" none [
        .elem "trias:ServiceDeparture" none [
          .elem "trias:TimetabledTime" (some "2025-01-10T08:00:00Z") []
        ]
      ]
    ]
  ]

/-- A departures document with exactly one complete stop event (N = 1,
M = 0). -/
def c1CompleteDoc : XML := .elem "trias:Trias" none [c1Event]

/-- A departures document with two stop events that each lack a required
field: the first has no line, the second no scheduled time (N = 2, M = 2). -/
def c1IncompleteDoc : XML :=
  .elem "trias:Trias" none [
    .elem "trias:StopEvent" none [
      .elem "trias:Service" none [
        .elem "trias:JourneyRef" (some "J2") [],
        .elem "trias:DestinationText" none [.elem "trias:Text" (some "X") []]
      ],
      .elem "trias:ThisCall" none [
        .elem "trias:ServiceDeparture" none [
          .elem "trias:TimetabledTime" (some "2025-01-10T08:00:00Z") []
        ]
      ]
    ],
    .elem "trias:StopEvent" none [
      .elem "trias:Service" none [
        .elem "trias:JourneyRef" (some "J3") [],
        .elem "trias:PublishedLineName" none [.elem "trias:Text" (some "S1") []],
        .elem "trias:DestinationText" none [.elem "trias:Text" (some "Y") []]
      ]
    ]
  ]

/-- A complete stop event with scheduled `2025-07-01T10:00:00Z` and estimated
`2025-07-01T10:03:30Z` (a 210-second delay, truncating to 3 minutes). -/
def c2Event : XML :=
  .elem "trias:StopEvent" none [
    .elem "trias:Service" none [
      .elem "trias:JourneyRef" (some "J7") [],
      .elem "trias:PublishedLineName" none [.elem "trias:Text" (some "42") []],
      .elem "trias:DestinationText" none [.elem "trias:Text" (some "Depot") []]
    ],
    .elem "trias:ThisCall" none [
      .elem "trias:CallAtStop" none [
        .elem "trias:ServiceDeparture" none [
          .elem "trias:TimetabledTime" (some "2025-07-01T10:00:00Z") [],
          .elem "trias:EstimatedTime" (some "2025-07-01T10:03:30Z") []
        ]
      ]
    ]
  ]

/-- The fields that the parser computes for `c2Event`. -/
def c2Fields : DepartureFields :=
  match stopEventFields c2Event with
  | .ok f => f
  | .error _ => mkDepFields none none none none none none none .UNKNOWN

/-- The stop event of spec section 8.7: journey ref `J1`, line `U6`,
destination `Gerlingen`, scheduled `2025-09-22T16:00:00Z`, estimated
`2025-09-22T16:05:00Z`. -/
def c3Event : XML :=
  .elem "trias:StopEvent" none [
    .elem "trias:Service" none [
      .elem "trias:JourneyRef" (some "J1") [],
      .elem "trias:PublishedLineName" none [.elem "trias:Text" (some "U6") []],
      .elem "trias:DestinationText" none [.elem "trias:Text" (some "Gerlingen") []]
    ],
    .elem "trias:ThisCall" none [
      .elem "trias:CallAtStop" none [
        .elem "trias:ServiceDeparture" none [
          .elem "trias:TimetabledTime" (some "2025-09-22T16:00:00Z") [],
          .elem "trias:EstimatedTime" (some "2025-09-22T16:05:00Z") []
        ]
      ]
    ]
  ]

/-- A departures document containing exactly the stop event of spec 8.7. -/
def c3Doc : XML := .elem "trias:Trias" none [c3Event]

/-- The fields that the parser computes for `c3Event`. -/
def c3Fields : DepartureFields :=
  match stopEventFields c3Event with
  | .ok f => f
  | .error _ => mkDepFields none none none none none none none .UNKNOWN

/-- A stops document with one valid location (reference and name present)
and one location whose stop point has no name. -/
def c5StopsDoc : XML :=
  .elem "trias:Trias" none [
    .elem "trias:Location" none [
      .elem "trias:StopPoint" none [
        .elem "trias:StopPointRef" (some "de:08111:6008") [],
        .elem "trias:StopPointName" none [.elem "trias:Text" (some "Universitaet") []]
      ],
      .elem "trias:LocationName" none [.elem "trias:Text" (some "Stuttgart") []]
    ],
    .elem "trias:Location" none [
      .elem "trias:StopPoint" none [
        .elem "trias:StopPointRef" (some "de:1") []
      ]
    ]
  ]

/-- The stop that `parseStops` emits for `c5StopsDoc`. -/
def c5Stop : Stop :=
  (match parseStops (.ok c5StopsDoc) with
   | .ok l => l
   | .error _ => []).headD ⟨none, none, none, none, none, .UNKNOWN⟩

/-- A connections document whose single trip has a leg whose `LegStart`
carries a `StopPointRef` but no `StopPointName`: the leg's origin `Stop` is
built with an empty name and is not dropped. The trip-level `StartTime` and
`EndTime` elements are given a child element to make them truthy for the
`all([...])` test of src/parsers.py line 263. -/
def c5ConnDoc : XML :=
  .elem "trias:Trias" none [
    .elem "trias:Trip" none [
      .elem "trias:StartTime" (some "2025-09-22T16:00:00Z") [.elem "pad" none []],
      .elem "trias:EndTime" (some "2025-09-22T16:30:00Z") [.elem "pad" none []],
      .elem "trias:TripLeg" none [
        .elem "trias:TimedLeg" none [
          .elem "trias:StartTime" (some "2025-09-22T16:00:00Z") [],
          .elem "trias:EndTime" (some "2025-09-22T16:30:00Z") [],
          .elem "trias:LegStart" none [.elem "trias:StopPointRef" (some "de:1") []],
          .elem "trias:LegEnd" none [
            .elem "trias:StopPointRef" (some "de:2") [],
            .elem "trias:StopPointName" none [.elem "trias:Text" (some "End") []]
          ]
        ]
      ]
    ]
  ]

/-- A disruption document with situations of priorities 0, 1, 2, 3 and 5. -/
def c6GoodDoc : XML :=
  .elem "trias:Trias" none [
    .elem "trias:PtSituation" none [.elem "siri:Priority" (some "0") []],
    .elem "trias:PtSituation" none [.elem "siri:Priority" (some "1") []],
    .elem "trias:PtSituation" none [.elem "siri:Priority" (some "2") []],
    .elem "trias:PtSituation" none [.elem "siri:Priority" (some "3") []],
    .elem "trias:PtSituation" none [.elem "siri:Priority" (some "5") []]
  ]

/-- A disruption document containing a situation whose priority text is not
a parseable integer. -/
def c6BadDoc : XML :=
  .elem "trias:Trias" none [
    .elem "trias:PtSituation" none [.elem "siri:Priority" (some "1") []],
    .elem "trias:PtSituation" none [.elem "siri:Priority" (some "abc") []]
  ]

/-- A two-leg connections document with complete stop data on every leg and
truthy (child-bearing) trip-level time elements. -/
def c7Doc : XML :=
  .elem "trias:Trias" none [
    .elem "trias:Trip" none [
      .elem "trias:StartTime" (some "2025-09-22T16:00:00Z") [.elem "pad" none []],
      .elem "trias:EndTime" (some "2025-09-22T16:45:00Z") [.elem "pad" none []],
      .elem "trias:TripLeg" none [
        .elem "trias:TimedLeg" none [
          .elem "trias:StartTime" (some "2025-09-22T16:00:00Z") [],
          .elem "trias:EndTime" (some "2025-09-22T16:20:00Z") [],
          .elem "trias:LegStart" none [
            .elem "trias:StopPointRef" (some "de:1") [],
            .elem "trias:StopPointName" none [.elem "trias:Text" (some "A") []]
          ],
          .elem "trias:LegEnd" none [
            .elem "trias:StopPointRef" (some "de:2") [],
            .elem "trias:StopPointName" none [.elem "trias:Text" (some "B") []]
          ]
        ]
      ],
      .elem "trias:TripLeg" none [
        .elem "trias:TimedLeg" none [
          .elem "trias:StartTime" (some "2025-09-22T16:25:00Z") [],
          .elem "trias:EndTime" (some "2025-09-22T16:45:00Z") [],
          .elem "trias:LegStart" none [
            .elem "trias:StopPointRef" (some "de:2") [],
            .elem "trias:StopPointName" none [.elem "trias:Text" (some "B") []]
          ],
          .elem "trias:LegEnd" none [
            .elem "trias:StopPointRef" (some "de:3") [],
            .elem "trias:StopPointName" none [.elem "trias:Text" (some "C") []]
          ]
        ]
      ]
    ]
  ]

/-- A fallback connection leg (never reached on the example document). -/
def arbLeg : ConnectionLeg :=
  ⟨⟨none, none, none, none, none, .UNKNOWN⟩, ⟨none, none, none, none, none, .UNKNOWN⟩,
   ⟨0, 0⟩, ⟨0, 0⟩, none, .UNKNOWN⟩

/-- A fallback connection (never reached on the example document). -/
def arbConn : Connection :=
  ⟨⟨none, none, none, none, none, .UNKNOWN⟩, ⟨none, none, none, none, none, .UNKNOWN⟩,
   ⟨0, 0⟩, ⟨0, 0⟩, 0, []⟩

/-- The connection that `parseConnections` emits for `c7Doc`. -/
def c7Conn : Connection := (parseConnectionsOk c7Doc).headD arbConn

/-- The first leg of `c7Conn`. -/
def c7FirstLeg : ConnectionLeg := c7Conn.legs.headD arbLeg

/-- The last leg of `c7Conn`. -/
def c7LastLeg : ConnectionLeg := c7Conn.legs.getLastD arbLeg

/-- A well-formed stops document whose location carries a `GeoPosition` with
a `Latitude` element that has no text: `float(None)` raises `TypeError`. -/
def c8Doc : XML :=
  .elem "trias:Trias" none [
    .elem "trias:Location" none [
      .elem "trias:StopPoint" none [
        .elem "trias:StopPointRef" (some "r") [],
        .elem "trias:StopPointName" none [.elem "trias:Text" (some "n") []]
      ],
      .elem "trias:GeoPosition" none [.elem "trias:Latitude" none []]
    ]
  ]

/-- A disruption document with only out-of-range (but parseable) priorities. -/
def c10GoodDoc : XML :=
  .elem "trias:Trias" none [
    .elem "trias:PtSituation" none [.elem "siri:Priority" (some "0") []],
    .elem "trias:PtSituation" none [.elem "siri:Priority" (some "5") []]
  ]

/-- A disruption document with a situation whose priority text is not a
parseable integer. -/
def c10BadDoc : XML :=
  .elem "trias:Trias" none [
    .elem "trias:PtSituation" none [.elem "siri:Priority" (some "oops") []]
  ]

/-! ## Helper lemmas -/

/-- Truncating division of a non-negative integer by 60 is floor division. -/
theorem tdiv_sixty_of_nonneg (d : Int) (h : 0 ≤ d) :
    Int.tdiv d 60 = ((d.toNat / 60 : Nat) : Int) := by
  obtain ⟨n, rfl⟩ := Int.eq_ofNat_of_zero_le h
  rfl

/-- The delay and realtime fields assembled by `mkDepFields` satisfy the
delay-arithmetic contract. -/
theorem mkDepFields_delay_realtime (jr li de st : Option String)
    (sdt est : Option PyDateTime) (pf : Option String) (tm : TransportMode) :
    (∀ S E, sdt = some S → est = some E → S.utcSeconds ≤ E.utcSeconds →
      (mkDepFields jr li de st sdt est pf tm).delayMinutes =
        some (((E.utcSeconds - S.utcSeconds).toNat / 60 : Nat) : Int) ∧
      (mkDepFields jr li de st sdt est pf tm).realtime = true) ∧
    (est = none →
      (mkDepFields jr li de st sdt est pf tm).delayMinutes = none ∧
      (mkDepFields jr li de st sdt est pf tm).realtime = false) := by
  constructor
  · intro S E hS hE hle
    subst hS; subst hE
    refine ⟨?_, rfl⟩
    show some (Int.tdiv (E.utcSeconds - S.utcSeconds) 60) = _
    rw [tdiv_sixty_of_nonneg _ (by omega)]
  · intro hE
    subst hE
    cases sdt <;> exact ⟨rfl, rfl⟩

/-- A stop emitted by one `parseStops` loop iteration has truthy reference
and name. -/
theorem processLocation_truthy (loc : XML) (s : Stop)
    (h : processLocation loc = .ok (some s)) :
    strTruthy s.id = true ∧ strTruthy s.name = true := by
  unfold processLocation at h
  cases hsp : findDesc loc "trias:StopPoint" with
  | none => rw [hsp] at h; cases h
  | some sp =>
    rw [hsp] at h
    cases hg : geoOf loc with
    | error e => rw [hg] at h; cases h
    | ok latlon =>
      obtain ⟨lat, lon⟩ := latlon
      rw [hg] at h
      dsimp only at h
      split at h
      · next hguard =>
        cases h with
        | refl =>
          rw [Bool.and_eq_true] at hguard
          exact ⟨hguard.1, hguard.2⟩
      · cases h

/-- Every stop in a successful `stopsGo` result has truthy reference and
name. -/
theorem stopsGo_mem_truthy (locs : List XML) (l : List Stop)
    (h : stopsGo locs = .ok l) :
    ∀ s ∈ l, strTruthy s.id = true ∧ strTruthy s.name = true := by
  induction locs generalizing l with
  | nil =>
    unfold stopsGo at h
    cases h
    intro s hs
    cases hs
  | cons loc rest ih =>
    unfold stopsGo at h
    cases hp : processLocation loc with
    | error e => rw [hp] at h; cases h
    | ok o =>
      rw [hp] at h
      cases o with
      | none => exact ih l h
      | some s0 =>
        cases hr : stopsGo rest with
        | error e => rw [hr] at h; cases h
        | ok l' =>
          rw [hr] at h
          cases h with
          | refl =>
            intro s hs
            cases hs with
            | head => exact processLocation_truthy loc s0 hp
            | tail _ hmem => exact ih l' hr s hmem

/-- `getLast?` of a cons cell in terms of `getLastD`. -/
theorem getLast_q_cons (a : α) (l : List α) :
    (a :: l).getLast? = some (l.getLastD a) := by
  induction l generalizing a with
  | nil => rfl
  | cons b t ih => rw [List.getLast?_cons_cons, List.getLastD_cons]; exact ih b

/-- The connection built from one trip node satisfies the structural
invariants of spec section 3. -/
theorem processTrip_inv (trip : XML) (c : Connection)
    (h : processTrip trip = some c) :
    c.legs ≠ [] ∧
    (∀ l0, c.legs.head? = some l0 → c.origin = l0.origin) ∧
    (∀ ln, c.legs.getLast? = some ln → c.destination = ln.destination) ∧
    c.durationMinutes =
      Int.tdiv (c.arrivalTime.utcSeconds - c.departureTime.utcSeconds) 60 := by
  unfold processTrip at h
  split at h
  · split at h
    · split at h
      · cases h
      · cases h with
        | refl =>
          refine ⟨by simp, ?_, ?_, rfl⟩
          · intro lh hlh
            simp only [List.head?_cons, Option.some.injEq] at hlh
            rw [← hlh]
          · intro ln hln
            rw [getLast_q_cons] at hln
            simp only [Option.some.injEq] at hln
            rw [← hln]
    · cases h
  · cases h

/-- Every connection returned by the well-formed branch of
`parseConnections` comes from `processTrip` on some trip node. -/
theorem parseConnectionsOk_mem (x : XML) (c : Connection)
    (h : c ∈ parseConnectionsOk x) :
    ∃ t, processTrip t = some c := by
  unfold parseConnectionsOk at h
  rw [List.mem_filterMap] at h
  obtain ⟨t, _, ht⟩ := h
  exact ⟨t, ht⟩

/-- Under the parseability hypothesis on one situation node, the loop body
agrees with the spec-side filter and does not raise. -/
theorem checkSituation_spec (sit : XML)
    (h : (match findDesc sit "siri:Priority" with
          | none => true
          | some pe => (pyInt pe.text).toBool) = true) :
    checkSituation sit = .ok (specSituationFilter sit) := by
  unfold checkSituation specSituationFilter
  cases hp : findDesc sit "siri:Priority" with
  | none => rfl
  | some pe =>
    rw [hp] at h
    have h' : (pyInt pe.text).toBool = true := h
    cases hi : pyInt pe.text with
    | error e => rw [hi] at h'; simp [Except.toBool] at h'
    | ok p => by_cases hc : 0 < p ∧ p < 3 <;> simp [hi, hc]

/-- Under the parseability hypothesis, the situation loop succeeds and
surfaces exactly the spec-side notices. -/
theorem checkGo_spec (sits : List XML)
    (h : ∀ sit ∈ sits, (match findDesc sit "siri:Priority" with
          | none => true
          | some pe => (pyInt pe.text).toBool) = true) :
    checkGo sits = .ok (sits.filterMap specSituationFilter) := by
  induction sits with
  | nil => rfl
  | cons sit rest ih =>
    have hsit : checkSituation sit = .ok (specSituationFilter sit) :=
      checkSituation_spec sit (h sit (List.mem_cons_self sit rest))
    have hrest := ih (fun s hs => h s (List.mem_cons_of_mem sit hs))
    unfold checkGo
    rw [hsit, List.filterMap_cons]
    cases hf : specSituationFilter sit with
    | none => exact hrest
    | some n => rw [hrest]; rfl

/-- The duration regex finds no match when the input does not start with the
literal `PT`. -/
theorem durationMatch_none_of_not_lead (cs : List Char)
    (h : listLead ['P', 'T'] cs = false) : durationMatch cs = none := by
  unfold durationMatch
  split
  · simp [listLead] at h
  · rfl

/-! ## Theorems for the claims -/

/-- C1: the claim states that a well-formed departures document with N stop
events of which M lack a required field yields exactly N−M Departure records
with no escaping exception. The code instead raises `TypeError` as soon as
one stop event has all required fields, because the `Departure(...)` call at
src/parsers.py line 226 uses the keyword `_scheduledDateTime` while the
dataclass field (src/models.py line 58) is `scheduledDateTime`: on
`c1CompleteDoc` (N = 1, M = 0) the call fails instead of returning one
record; only when M = N (as on `c1IncompleteDoc`) does it return the N−M = 0
records. -/
theorem c1_departures_constructor_crash :
    parseDepartures (.ok c1CompleteDoc) = .error .typeError ∧
    parseDepartures (.ok c1IncompleteDoc) = .ok [] := by
  constructor <;> rfl

/-- C3: the claim states that parsing the single-stop-event document of spec
section 8.7 yields one Departure with line `U6`, `delayMinutes = 5`,
`realtime = true`, scheduled display time `18:00`. The parser computes
exactly those field values (in particular the Europe/Berlin conversion
16:00 UTC → 18:00), but the `Departure` constructor call then raises
`TypeError` (see C1), so the parse call crashes instead of yielding the
record. -/
theorem c3_example_evaluation :
    parseDepartures (.ok c3Doc) = .error .typeError ∧
    stopEventFields c3Event = .ok c3Fields ∧
    c3Fields.line = some "U6" ∧
    c3Fields.delayMinutes = some 5 ∧
    c3Fields.realtime = true ∧
    c3Fields.scheduledTime = some "18:00" := by
  refine ⟨rfl, rfl, rfl, rfl, rfl, rfl⟩

/-- C2: for every stop event whose fields the departures parser computes
without raising, when both the scheduled instant S and the estimated instant
E are present with E ≥ S, the computed `delayMinutes` equals
floor((E−S)/60s) and `realtime` is true; when the estimated instant is
absent, `delayMinutes` is absent and `realtime` is false. (These are the
field values bound to the Departure record at src/parsers.py lines
221-232.) -/
theorem c2_delay_realtime (se : XML) (f : DepartureFields)
    (h : stopEventFields se = .ok f) :
    (∀ S E, f.scheduledDateTime = some S → f.estimatedTime = some E →
      S.utcSeconds ≤ E.utcSeconds →
      f.delayMinutes = some (((E.utcSeconds - S.utcSeconds).toNat / 60 : Nat) : Int) ∧
      f.realtime = true) ∧
    (f.estimatedTime = none → f.delayMinutes = none ∧ f.realtime = false) := by
  unfold stopEventFields at h
  cases hm : stopEventMode (findDesc se "trias:Service") with
  | error e => rw [hm] at h; cases h
  | ok tm =>
    rw [hm] at h
    injection h with h'
    subst h'
    exact mkDepFields_delay_realtime _ _ _ _ _ _ _ _

/-- C2 witness: on the concrete stop event `c2Event` (scheduled
2025-07-01T10:00:00Z, estimated 2025-07-01T10:03:30Z) the parser computes
`delayMinutes = 3` (210 seconds truncated) and `realtime = true`. -/
theorem c2_delay_realtime_witness :
    stopEventFields c2Event = .ok c2Fields ∧
    c2Fields.scheduledDateTime = some ⟨1751364000, 120⟩ ∧
    c2Fields.estimatedTime = some ⟨1751364210, 120⟩ ∧
    c2Fields.delayMinutes = some 3 ∧
    c2Fields.realtime = true := by
  have hok : stopEventFields c2Event = .ok c2Fields := rfl
  have h := (c2_delay_realtime c2Event c2Fields hok).1
    ⟨1751364000, 120⟩ ⟨1751364210, 120⟩ rfl rfl (by decide)
  exact ⟨hok, rfl, rfl, h.1.trans (by decide), h.2⟩

/-- C4: transport-mode classification is a total deterministic function and
agrees pointwise with the spec's priority-ordered, case-insensitive
substring rule table (rail before bus before tram before subway, else
unknown; first match wins). -/
theorem c4_mode_classification (s : String) :
    parseTransportMode s = specTransportClassify s := by
  simp only [parseTransportMode, specTransportClassify, specClassifyRules,
    firstMatch, List.any_cons, List.any_nil, Bool.or_false, Bool.or_assoc]

/-- C5 (amended): every Stop emitted by `parseStops` has a truthy (non-empty,
non-`None`) reference and name; records missing either are dropped. (The
original claim extended this to Stops carried as connection-leg endpoints,
which the code does not guarantee — see the counterexample.) -/
theorem c5_parseStops_nonempty (x : XML) (l : List Stop)
    (h : parseStops (.ok x) = .ok l) :
    ∀ s ∈ l, strTruthy s.id = true ∧ strTruthy s.name = true :=
  stopsGo_mem_truthy _ l h

/-- C5 witness: on `c5StopsDoc`, `parseStops` emits exactly one stop, and it
has a truthy reference and name. -/
theorem c5_parseStops_nonempty_witness :
    parseStops (.ok c5StopsDoc) = .ok [c5Stop] ∧
    strTruthy c5Stop.id = true ∧ strTruthy c5Stop.name = true := by
  have hok : parseStops (.ok c5StopsDoc) = .ok [c5Stop] := rfl
  exact ⟨hok, c5_parseStops_nonempty c5StopsDoc [c5Stop] hok c5Stop
    (List.mem_singleton.mpr rfl)⟩

/-- C5 counterexample: on `c5ConnDoc`, `parseConnections` surfaces a
connection whose origin Stop (equal to the first leg's origin Stop) has the
empty name — the record is not dropped, refuting the claim that every Stop
surfaced as a leg endpoint has a non-empty name. -/
theorem c5_leg_stop_empty_name_cex :
    (parseConnectionsOk c5ConnDoc).map (fun c => c.origin.name) = [some ""] ∧
    (parseConnectionsOk c5ConnDoc).map
      (fun c => (c.legs.headD arbLeg).origin.name) = [some ""] :=
  ⟨rfl, rfl⟩

/-- C6 (amended): when every situation node's priority element is absent or
has integer-parseable text, the disruption check surfaces exactly the
situation nodes whose priority is strictly between 0 and 3, skips nodes
without a priority element, drops all other priorities, and returns True.
(The original claim also let nodes with non-integer priority text be skipped
without error; those make the call raise — see the counterexample.) -/
theorem c6_disruption_filtering (x : XML) (h : allPriosParse x = true) :
    check_train_disruptions_body x = .ok (specSurfacedNotices x, true) := by
  unfold allPriosParse at h
  have h' := List.all_eq_true.mp h
  unfold check_train_disruptions_body
  rw [checkGo_spec _ (fun sit hs => h' sit hs)]
  rfl

/-- C6 witness: on the document with situation priorities 0, 1, 2, 3 and 5,
exactly the priority-1 and priority-2 notices are surfaced. -/
theorem c6_disruption_filtering_witness :
    allPriosParse c6GoodDoc = true ∧
    check_train_disruptions_body c6GoodDoc =
      .ok ([⟨1, none, none, none⟩, ⟨2, none, none, none⟩], true) := by
  have h : allPriosParse c6GoodDoc = true := rfl
  exact ⟨h, (c6_disruption_filtering c6GoodDoc h).trans rfl⟩

/-- C6 counterexample: a situation whose priority text is `"abc"` is not
skipped — `int("abc")` raises an uncaught `ValueError`, so the whole check
fails, refuting the claim's "skipped without error". -/
theorem c6_unparseable_priority_cex :
    check_train_disruptions_body c6BadDoc = .error .valueError := rfl

/-- C7: every Connection returned by `parseConnections` has a non-empty leg
sequence, its origin equals the first leg's origin, its destination equals
the last leg's destination, and `durationMinutes` is the whole-minute
(truncated) difference of the trip-level end and start instants stored on
the record — not a sum over legs. -/
theorem c7_connection_invariants (x : XML) (c : Connection)
    (h : c ∈ parseConnectionsOk x) :
    c.legs ≠ [] ∧
    (∀ l0, c.legs.head? = some l0 → c.origin = l0.origin) ∧
    (∀ ln, c.legs.getLast? = some ln → c.destination = ln.destination) ∧
    c.durationMinutes =
      Int.tdiv (c.arrivalTime.utcSeconds - c.departureTime.utcSeconds) 60 := by
  obtain ⟨t, ht⟩ := parseConnectionsOk_mem x c h
  exact processTrip_inv t c ht

/-- C7 witness: the two-leg connection parsed from `c7Doc` satisfies all the
invariants (45-minute trip, origin `A`, destination `C`). -/
theorem c7_connection_invariants_witness :
    c7Conn ∈ parseConnectionsOk c7Doc ∧
    c7Conn.legs ≠ [] ∧
    c7Conn.origin = c7FirstLeg.origin ∧
    c7Conn.destination = c7LastLeg.destination ∧
    c7Conn.durationMinutes =
      Int.tdiv (c7Conn.arrivalTime.utcSeconds - c7Conn.departureTime.utcSeconds) 60 := by
  have hl : parseConnectionsOk c7Doc = [c7Conn] := rfl
  have hmem : c7Conn ∈ parseConnectionsOk c7Doc := by
    rw [hl]; exact List.mem_singleton.mpr rfl
  have h := c7_connection_invariants c7Doc c7Conn hmem
  exact ⟨hmem, h.1, h.2.1 c7FirstLeg rfl, h.2.2.1 c7LastLeg rfl, h.2.2.2⟩

/-- C8 (amended): an input that is not well-formed XML makes each parse
operation fail the whole call with a parse error (no partial list is
returned), and on well-formed input `parseConnections` never raises. (The
original claim also said no parse operation ever raises on well-formed input
because of missing fields; `parseStops` does — see the counterexample — and
`parseDepartures` raises on complete stop events, see C1.) -/
theorem c8_malformed_fails_whole :
    parseStops (.error ()) = .error .parseFailure ∧
    parseDepartures (.error ()) = .error .parseFailure ∧
    parseConnections (.error ()) = .error .parseFailure ∧
    ∀ x : XML, (parseConnections (.ok x)).isOk = true :=
  ⟨rfl, rfl, rfl, fun _ => rfl⟩

/-- C8 counterexample: a well-formed stops document whose location has a
`GeoPosition` with an empty `Latitude` element makes `parseStops` raise
(`float(None)` is a `TypeError`, uncaught), refuting "for well-formed input
it never raises on account of missing fields". -/
theorem c8_wellformed_raises_cex :
    parseStops (.ok c8Doc) = .error .typeError := rfl

/-- C9 (amended): the duration formatter maps `PT1H23M`, `PT45M` and `PT2H`
as the claim states, and returns inputs that do not start with `PT`
unchanged. (The original claim promised pass-through for every non-matching
input; inputs that start with `PT` but do not match the grammar are instead
rendered from the — possibly empty — matched leading components, and the
duplicate `convertISODuration` returns `None`; see the counterexample.) -/
theorem c9_duration_formatting :
    convert_iso_duration "PT1H23M" = "1 hr 23 min" ∧
    convert_iso_duration "PT45M" = "45 min" ∧
    convert_iso_duration "PT2H" = "2 hr" ∧
    ∀ s : String, listLead ['P', 'T'] s.data = false → convert_iso_duration s = s := by
  refine ⟨rfl, rfl, rfl, ?_⟩
  intro s h
  unfold convert_iso_duration
  rw [durationMatch_none_of_not_lead s.data h]

/-- C9 witness: `"1 day"` does not start with `PT` and is returned
unchanged. -/
theorem c9_duration_formatting_witness :
    listLead ['P', 'T'] ("1 day").data = false ∧
    convert_iso_duration "1 day" = "1 day" :=
  ⟨by decide, c9_duration_formatting.2.2.2 "1 day" (by decide)⟩

/-- C9 counterexample: `"PTx"` does not match the duration grammar, yet
`convert_iso_duration` returns `""` rather than the input unchanged; and the
duplicate `convertISODuration` (src/src/utils.py) returns `None` for the
claim's own example `"1 day"` instead of the input. -/
theorem c9_passthrough_cex :
    convert_iso_duration "PTx" = "" ∧ convertISODuration "1 day" = none :=
  ⟨rfl, rfl⟩

/-- C10 (amended): for every HTTP-200 response whose well-formed body has
only situations whose priority element is absent or integer-parseable, the
disruption check returns True — also with zero situations or only
out-of-range priorities; its boolean never distinguishes "relevant
disruptions found" from "none found". (The original claim covered every
well-formed body; a non-integer priority text makes the call raise instead —
see the counterexample.) -/
theorem c10_success_always_true (x : XML) (h : allPriosParse x = true) :
    (check_train_disruptions_body x).map (fun r => r.2) = .ok true := by
  unfold allPriosParse at h
  have h' := List.all_eq_true.mp h
  unfold check_train_disruptions_body
  rw [checkGo_spec _ (fun sit hs => h' sit hs)]
  rfl

/-- C10 witness: a document with only priorities 0 and 5 (nothing surfaced)
still yields True. -/
theorem c10_success_always_true_witness :
    allPriosParse c10GoodDoc = true ∧
    (check_train_disruptions_body c10GoodDoc).map (fun r => r.2) = .ok true :=
  ⟨rfl, c10_success_always_true c10GoodDoc rfl⟩

/-- C10 counterexample: a well-formed HTTP-200 body with priority text
`"oops"` does not return True — the call raises `ValueError`. -/
theorem c10_wellformed_not_true_cex :
    check_train_disruptions_body c10BadDoc = .error .valueError := rfl

end VVS
